import Mathlib

/-!
Verification of the Radar Sync & Session-Resumption Orchestrator of the
Aletheia browser client, shallowly embedded in Lean 4.

The embedding covers three parts of the client:

* `requestSync` — the sync coordinator `syncRadar` from
  `src/hooks/useRadars.ts`: snapshot the entity marker, trigger the
  background job, then poll up to 12 times for a marker change.
* `resolveRadar` / `loadThread` — the workspace-resumption resolver
  `handleSelectRadar` / `handleSelectThread` from `src/App.tsx`.
* `projectRadarItem` — the artifact projector `radarDocuments` from
  `src/App.tsx`, together with the thread-merge `setThreads` update.

Remote calls are modelled by explicit result values: `Fetch.ok` is a
2xx response carrying a parsed JSON body, `Fetch.httpError` is a
non-2xx response, and `Fetch.netError` is a request (or body parse)
that throws.  State updates become explicit state passing.
-/

namespace Aletheia

/-- Result of one `fetch` call: 2xx with parsed body, non-2xx response,
or a thrown network/parse error. -/
inductive Fetch (α : Type) where
  | ok (val : α)
  | httpError
  | netError
deriving DecidableEq, Repr

/-- Outcome of one `syncRadar` invocation (`src/hooks/useRadars.ts`). -/
inductive SyncOutcome where
  | completed
  | timedOut
  | triggerFailed
  | errored
deriving DecidableEq, Repr

/-- Observable trace of one `syncRadar` invocation: the Step-1 snapshot
value actually used (none when the invocation aborted before the
snapshot was taken), whether the POST trigger request was issued, how
many polling GETs were issued, the final outcome, whether the items
refresh ran, and the `onUpdate` progress messages. -/
structure SyncRun where
  snapshot : Option String
  triggerIssued : Bool
  pollsIssued : Nat
  outcome : SyncOutcome
  itemsRefreshed : Bool
  messages : List String
deriving DecidableEq, Repr

/-- `maxAttempts = 12` from `syncRadar` (`useRadars.ts` line 95). -/
def maxAttempts : Nat := 12

/-- One polling check observes a marker change exactly when the GET
succeeded and its `lastUpdated` differs from the Step-1 snapshot
(`useRadars.ts` lines 106-112); failed polls observe nothing. -/
def observesChange (snap : String) : Fetch String → Bool
  | .ok m => m ≠ snap
  | .httpError => false
  | .netError => false

/-- The poll loop of `syncRadar` (`useRadars.ts` lines 98-117), run with
`fuel` remaining attempts starting at attempt index `i`.  Returns the
number of polls issued and whether `syncComplete` was set.  A non-2xx
check or a thrown check is swallowed and merely consumes the attempt. -/
def runPolls (snap : String) (polls : Nat → Fetch String) : Nat → Nat → Nat × Bool
  | _, 0 => (0, false)
  | i, fuel + 1 =>
    if observesChange snap (polls i) then
      (1, true)
    else
      let r := runPolls snap polls (i + 1) fuel
      (r.1 + 1, r.2)

/-- The Step-1 snapshot: `initialLastUpdated` starts as `""` and is
overwritten only when the initial GET is 2xx (`useRadars.ts` 80-84). -/
def snapshotOf : Fetch String → String
  | .ok m => m
  | _ => ""

/-- `syncRadar` from `src/hooks/useRadars.ts` (the spec's
`requestSync`): a thrown initial GET escapes to the outer catch before
the trigger; otherwise the snapshot (`""` on a non-2xx read) is taken,
the trigger POST is issued, a thrown trigger escapes to the outer
catch, a non-2xx trigger reports the trigger error without polling, and
a 2xx trigger enters the 12-attempt poll loop; on a marker change the
items are refreshed once and completion is reported, otherwise the
timeout message is reported. -/
def requestSync (initial : Fetch String) (trigger : Fetch Unit)
    (polls : Nat → Fetch String) : SyncRun :=
  match initial with
  | .netError =>
    { snapshot := none, triggerIssued := false, pollsIssued := 0,
      outcome := .errored, itemsRefreshed := false,
      messages := ["Error syncing radar: <error>"] }
  | _ =>
    let snap := snapshotOf initial
    match trigger with
    | .netError =>
      { snapshot := some snap, triggerIssued := true, pollsIssued := 0,
        outcome := .errored, itemsRefreshed := false,
        messages := ["Error syncing radar: <error>"] }
    | .httpError =>
      { snapshot := some snap, triggerIssued := true, pollsIssued := 0,
        outcome := .triggerFailed, itemsRefreshed := false,
        messages := ["Error triggering sync: <statusText>"] }
    | .ok _ =>
      let r := runPolls snap polls 0 maxAttempts
      if r.2 then
        { snapshot := some snap, triggerIssued := true, pollsIssued := r.1,
          outcome := .completed, itemsRefreshed := true,
          messages := ["Sync completed successfully."] }
      else
        { snapshot := some snap, triggerIssued := true, pollsIssued := r.1,
          outcome := .timedOut, itemsRefreshed := false,
          messages := ["Sync timed out. Background process may still be running."] }

theorem runPolls_fst_le (snap : String) (polls : Nat → Fetch String) :
    ∀ fuel i, (runPolls snap polls i fuel).1 ≤ fuel := by
  intro fuel
  induction fuel with
  | zero => intro i; simp [runPolls]
  | succ n ih =>
    intro i
    cases h : observesChange snap (polls i) with
    | true => simp [runPolls, h]
    | false =>
      simp only [runPolls, h, Bool.false_eq_true, if_false]
      have := ih (i + 1)
      omega

theorem runPolls_no_change (snap : String) (polls : Nat → Fetch String) :
    ∀ fuel i, (∀ k, k < fuel → observesChange snap (polls (i + k)) = false) →
    runPolls snap polls i fuel = (fuel, false) := by
  intro fuel
  induction fuel with
  | zero => intro i _; rfl
  | succ n ih =>
    intro i h
    have h0 : observesChange snap (polls i) = false := by
      have := h 0 (Nat.succ_pos n)
      rwa [Nat.add_zero] at this
    have hrest : ∀ k, k < n → observesChange snap (polls (i + 1 + k)) = false := by
      intro k hk
      have := h (k + 1) (by omega)
      rwa [show i + (k + 1) = i + 1 + k by omega] at this
    simp only [runPolls, h0, Bool.false_eq_true, if_false, ih (i + 1) hrest]

theorem runPolls_first_change (snap : String) (polls : Nat → Fetch String) :
    ∀ fuel i j, j < fuel →
    observesChange snap (polls (i + j)) = true →
    (∀ k, k < j → observesChange snap (polls (i + k)) = false) →
    runPolls snap polls i fuel = (j + 1, true) := by
  intro fuel
  induction fuel with
  | zero => intro i j hj; omega
  | succ n ih =>
    intro i j hj hchange hbefore
    cases j with
    | zero =>
      have h0 : observesChange snap (polls i) = true := by
        rwa [Nat.add_zero] at hchange
      simp [runPolls, h0]
    | succ m =>
      have h0 : observesChange snap (polls i) = false := by
        have := hbefore 0 (Nat.succ_pos m)
        rwa [Nat.add_zero] at this
      have hchange' : observesChange snap (polls (i + 1 + m)) = true := by
        rwa [show i + (m + 1) = i + 1 + m by omega] at hchange
      have hbefore' : ∀ k, k < m → observesChange snap (polls (i + 1 + k)) = false := by
        intro k hk
        have := hbefore (k + 1) (by omega)
        rwa [show i + (k + 1) = i + 1 + k by omega] at this
      simp only [runPolls, h0, Bool.false_eq_true, if_false,
        ih (i + 1) m (by omega) hchange' hbefore']

theorem observesChange_eq_false_iff (snap : String) (f : Fetch String) :
    observesChange snap f = false ↔ ∀ m, f = Fetch.ok m → m = snap := by
  cases f <;> simp [observesChange]

example :
    (requestSync (.ok "a") (.ok ()) (fun i => if i < 3 then .ok "a" else .ok "b")).outcome
      = .completed := by decide

example :
    (requestSync (.ok "a") (.ok ()) (fun i => if i < 3 then .ok "a" else .ok "b")).pollsIssued
      = 4 := by decide

example :
    (requestSync (.ok "a") (.ok ()) (fun _ => .netError)).pollsIssued = 12 := by decide

example :
    (requestSync (.ok "a") (.ok ()) (fun _ => .netError)).outcome = .timedOut := by decide

/-- Unfolding of `requestSync` when the initial read did not throw and the
trigger was accepted: the run is determined by the 12-attempt poll loop. -/
theorem requestSync_ok_trigger (initial : Fetch String) (polls : Nat → Fetch String)
    (hinit : initial ≠ Fetch.netError) :
    requestSync initial (Fetch.ok ()) polls =
      (let snap := snapshotOf initial
       let r := runPolls snap polls 0 maxAttempts
       if r.2 then
        { snapshot := some snap, triggerIssued := true, pollsIssued := r.1,
          outcome := .completed, itemsRefreshed := true,
          messages := ["Sync completed successfully."] }
       else
        { snapshot := some snap, triggerIssued := true, pollsIssued := r.1,
          outcome := .timedOut, itemsRefreshed := false,
          messages := ["Sync timed out. Background process may still be running."] }) := by
  cases initial with
  | ok m => rfl
  | httpError => rfl
  | netError => exact absurd rfl hinit

/-- C1: in `syncRadar` a change of `lastUpdated` relative to the Step-1
snapshot is the sole completion signal: if every successful poll reads a
value equal to the snapshot the run never reports `completed`, and the
first poll that reads a different value (the snapshot may be the empty
string) ends the loop with `completed` after exactly that many checks. -/
theorem requestSync_marker_change_sole_signal
    (initial : Fetch String) (trigger : Fetch Unit) (polls : Nat → Fetch String)
    (hinit : initial ≠ Fetch.netError) (htrig : trigger = Fetch.ok ()) :
    ((∀ i, i < maxAttempts → ∀ m, polls i = Fetch.ok m → m = snapshotOf initial) →
        (requestSync initial trigger polls).outcome ≠ SyncOutcome.completed)
    ∧ (∀ j, j < maxAttempts →
        (∀ i, i < j → ∀ m, polls i = Fetch.ok m → m = snapshotOf initial) →
        ∀ m, polls j = Fetch.ok m → m ≠ snapshotOf initial →
        (requestSync initial trigger polls).outcome = SyncOutcome.completed ∧
        (requestSync initial trigger polls).pollsIssued = j + 1) := by
  subst htrig
  rw [requestSync_ok_trigger initial polls hinit]
  constructor
  · intro hall
    have hrun : runPolls (snapshotOf initial) polls 0 maxAttempts = (maxAttempts, false) := by
      apply runPolls_no_change
      intro k hk
      rw [Nat.zero_add, observesChange_eq_false_iff]
      exact hall k hk
    simp [hrun]
  · intro j hj hbefore m hm hne
    have hchange : observesChange (snapshotOf initial) (polls (0 + j)) = true := by
      rw [Nat.zero_add, hm]
      simpa [observesChange] using hne
    have hfalse : ∀ k, k < j → observesChange (snapshotOf initial) (polls (0 + k)) = false := by
      intro k hk
      rw [observesChange_eq_false_iff]
      intro m' hm'
      exact hbefore (0 + k) (by omega) m' hm'
    have hrun := runPolls_first_change (snapshotOf initial) polls maxAttempts 0 j hj hchange hfalse
    simp [hrun]

/-- C1 witness: an empty-string snapshot (non-2xx initial read) followed
by a first poll reading a non-empty marker completes after one check. -/
theorem requestSync_marker_change_sole_signal_witness :
    (requestSync Fetch.httpError (Fetch.ok ()) (fun _ => Fetch.ok "2026-02-01")).outcome
        = SyncOutcome.completed
    ∧ (requestSync Fetch.httpError (Fetch.ok ()) (fun _ => Fetch.ok "2026-02-01")).pollsIssued
        = 1 :=
  (requestSync_marker_change_sole_signal Fetch.httpError (Fetch.ok ())
      (fun _ => Fetch.ok "2026-02-01") (by simp) rfl).2 0 (by decide)
    (fun i hi => absurd hi (Nat.not_lt_zero i))
    "2026-02-01" rfl (by simp [snapshotOf])

/-- C2: `syncRadar` never issues more than 12 polling checks; a failed
poll is swallowed, consumes one attempt and the loop proceeds; when all
12 attempts pass without an observed marker change (each one failed or
read an unchanged value) the outcome is `timedOut` with all 12 checks
issued. -/
theorem requestSync_bounded_attempts
    (initial : Fetch String) (trigger : Fetch Unit) (polls : Nat → Fetch String) :
    (requestSync initial trigger polls).pollsIssued ≤ maxAttempts
    ∧ (initial ≠ Fetch.netError → trigger = Fetch.ok () →
        (∀ i, i < maxAttempts → observesChange (snapshotOf initial) (polls i) = false) →
        (requestSync initial trigger polls).outcome = SyncOutcome.timedOut ∧
        (requestSync initial trigger polls).pollsIssued = maxAttempts) := by
  constructor
  · cases initial with
    | netError => simp [requestSync]
    | ok m =>
      cases trigger with
      | netError => simp [requestSync]
      | httpError => simp [requestSync]
      | ok u =>
        have hle := runPolls_fst_le (snapshotOf (Fetch.ok m)) polls maxAttempts 0
        simp only [requestSync]
        split <;> simpa using hle
    | httpError =>
      cases trigger with
      | netError => simp [requestSync]
      | httpError => simp [requestSync]
      | ok u =>
        have hle := runPolls_fst_le (snapshotOf (Fetch.httpError)) polls maxAttempts 0
        simp only [requestSync]
        split <;> simpa using hle
  · intro hinit htrig hall
    subst htrig
    rw [requestSync_ok_trigger initial polls hinit]
    have hrun : runPolls (snapshotOf initial) polls 0 maxAttempts = (maxAttempts, false) := by
      apply runPolls_no_change
      intro k hk
      rw [Nat.zero_add]
      exact hall k hk
    simp [hrun]

/-- C2 witness: with a 2xx trigger and every poll throwing, all 12
attempts are consumed and the run times out. -/
theorem requestSync_bounded_attempts_witness :
    (requestSync (Fetch.ok "a") (Fetch.ok ()) (fun _ => Fetch.netError)).pollsIssued
        ≤ maxAttempts
    ∧ (requestSync (Fetch.ok "a") (Fetch.ok ()) (fun _ => Fetch.netError)).outcome
        = SyncOutcome.timedOut :=
  ⟨(requestSync_bounded_attempts (Fetch.ok "a") (Fetch.ok ()) (fun _ => Fetch.netError)).1,
   ((requestSync_bounded_attempts (Fetch.ok "a") (Fetch.ok ()) (fun _ => Fetch.netError)).2
      (by simp) rfl (fun i _ => rfl)).1⟩

/-- C6 counterexample: an initial marker read that throws (one way a
marker can be unreadable) aborts `syncRadar` through the outer catch —
no trigger request is issued, contradicting the claim that every
unreadable initial read degrades to an empty-string marker and proceeds
to the trigger. -/
theorem requestSync_initial_netError_no_trigger :
    (requestSync Fetch.netError (Fetch.ok ()) (fun _ => Fetch.ok "x")).triggerIssued = false
    ∧ (requestSync Fetch.netError (Fetch.ok ()) (fun _ => Fetch.ok "x")).outcome
        = SyncOutcome.errored := by
  constructor <;> rfl

/-- C6 amended: when the initial read returns a non-2xx response the
marker is treated as the empty string, the run is indistinguishable
from one whose initial read returned `""`, and the trigger request is
issued; but an initial read that throws aborts the whole operation with
an error report and no trigger. -/
theorem requestSync_initial_unreadable
    (trigger : Fetch Unit) (polls : Nat → Fetch String) :
    requestSync Fetch.httpError trigger polls = requestSync (Fetch.ok "") trigger polls
    ∧ (requestSync Fetch.httpError trigger polls).triggerIssued = true
    ∧ (requestSync Fetch.httpError trigger polls).snapshot = some ""
    ∧ (requestSync Fetch.netError trigger polls).triggerIssued = false
    ∧ (requestSync Fetch.netError trigger polls).outcome = SyncOutcome.errored := by
  refine ⟨rfl, ?_, ?_, rfl, rfl⟩ <;>
    cases trigger with
    | ok u => simp only [requestSync]; split <;> rfl
    | httpError => rfl
    | netError => rfl

/-! ## Artifact projector: `radarDocuments` from `src/App.tsx` (lines 151-184) -/

/-- A raw captured item as delivered by `GET /api/radars/:id/items`
(`RadarItem` in `src/hooks/useRadars.ts`); string-valued fields are
optional at runtime, so each is an `Option String`. -/
structure RadarItem where
  id : String
  title : Option String
  url : Option String
  summary : Option String
  asset_type : Option String
  asset_url : Option String
  timestamp : Option String
  parent : Option String
deriving DecidableEq, Repr

/-- The document shape produced by the `radarDocuments` projection. -/
structure ProjectedDocument where
  id : String
  name : String
  url : String
  isRadarAsset : Bool
  assetType : String
  summary : Option String
  title : Option String
deriving DecidableEq, Repr

/-- JavaScript truthiness of an optional string field: absent and `""`
are falsy, every other string is truthy. -/
def jsTruthy (o : Option String) : Bool := o.getD "" ≠ ""

/-- JavaScript template-literal rendering of a possibly-absent string. -/
def jsTemplate (o : Option String) : String := o.getD "undefined"

/-- `timestamp.split('T')[0]`: the part of the string before the first
`'T'`. -/
def beforeT (s : String) : String := String.mk (s.data.takeWhile (fun c => c ≠ 'T'))

/-- `.replace with the global dash regex: drop every `'-'`. -/
def stripDashes (s : String) : String := String.mk (s.data.filter (fun c => c ≠ '-'))

/-- Membership test for the character class `[a-z0-9]`. -/
def isLowerAlnum (c : Char) : Bool :=
  (('a' ≤ c ∧ c ≤ 'z') ∨ ('0' ≤ c ∧ c ≤ '9') : Prop)

/-- `title.toLowerCase().replace(/[^a-z0-9]/g, '_').substring(0, 30)`. -/
def sanitizeTitle (s : String) : String :=
  String.mk (((s.data.map Char.toLower).map fun c => if isLowerAlnum c then c else '_').take 30)

/-- `const dateStr` : the date part of the timestamp with dashes dropped when a
timestamp is truthy, else the placeholder `'20260201'`. -/
def dateStrOf (item : RadarItem) : String :=
  if jsTruthy item.timestamp then stripDashes (beforeT (item.timestamp.getD "")) else "20260201"

/-- `(item.title || 'summary')`. -/
def titleOrSummary (item : RadarItem) : String :=
  if jsTruthy item.title then item.title.getD "" else "summary"

/-- `s.endsWith(pat)`, expressed on the character lists. -/
def endsWithStr (s pat : String) : Bool := pat.data.isSuffixOf s.data

/-- `item.asset_type === 'audio' || (item.asset_url && item.asset_url.endsWith('.mp3'))`. -/
def isAudioItem (item : RadarItem) : Bool :=
  item.asset_type == some "audio"
    || (jsTruthy item.asset_url && endsWithStr (item.asset_url.getD "") ".mp3")

/-- The `assetType` local of the projection. -/
def assetTypeOf (item : RadarItem) : String :=
  if isAudioItem item then "audio" else "markdown"

/-- `const typeLabel = assetType === 'audio' ? 'podcast' : 'digest'`. -/
def typeLabelOf (item : RadarItem) : String :=
  if isAudioItem item then "podcast" else "digest"

/-- The `extension` local of the projection. -/
def extensionOf (item : RadarItem) : String :=
  if isAudioItem item then "mp3" else "md"

/-- The projected document name
`` `${dateStr}-${sanitizedTitle}-${typeLabel}.${extension}` ``. -/
def nameOf (item : RadarItem) : String :=
  dateStrOf item ++ "-" ++ sanitizeTitle (titleOrSummary item) ++ "-" ++ typeLabelOf item
    ++ "." ++ extensionOf item

/-- `` `# ${item.title}\n\n${item.summary}` ``. -/
def markdownContentOf (item : RadarItem) : String :=
  "# " ++ jsTemplate item.title ++ "\n\n" ++ jsTemplate item.summary

/-- The `downloadUrl` resolution (`App.tsx` 169-173):
`item.asset_url || item.url || '#'`, overridden by a synthesized data
URL when the item is markdown-typed, has no truthy `asset_url` and has
a truthy summary.  `encode` stands for the platform built-in
`encodeURIComponent`. -/
def downloadUrlOf (encode : String → String) (item : RadarItem) : String :=
  let base :=
    if jsTruthy item.asset_url then item.asset_url.getD ""
    else if jsTruthy item.url then item.url.getD ""
    else "#"
  if !isAudioItem item && !jsTruthy item.asset_url && jsTruthy item.summary then
    "data:text/markdown;charset=utf-8," ++ encode (markdownContentOf item)
  else base

/-- Projection of one captured item (the body of the `radarItems.map`
callback of `radarDocuments`, `App.tsx` 151-184). -/
def projectRadarItem (encode : String → String) (item : RadarItem) : ProjectedDocument :=
  { id := item.id
    name := nameOf item
    url := downloadUrlOf encode item
    isRadarAsset := true
    assetType := assetTypeOf item
    summary := item.summary
    title := item.title }

/-- `radarDocuments = radarItems.map(item => ...)`. -/
def radarDocuments (encode : String → String) (items : List RadarItem) : List ProjectedDocument :=
  items.map (projectRadarItem encode)

example :
    nameOf { id := "1", title := some "Attention Is All You Need!", url := none,
             summary := none, asset_type := none, asset_url := none,
             timestamp := some "2026-02-01T12:00:00Z", parent := none }
      = "20260201-attention_is_all_you_need_-digest.md" := by decide

example :
    nameOf { id := "1", title := some "Ep", url := none, summary := none,
             asset_type := some "pdf", asset_url := some "https://x/e.mp3",
             timestamp := none, parent := none }
      = "20260201-ep-podcast.mp3" := by decide

example :
    downloadUrlOf (fun s => s)
      { id := "1", title := some "T", url := some "https://u", summary := some "S",
        asset_type := none, asset_url := none, timestamp := none, parent := none }
      = "data:text/markdown;charset=utf-8,# T\n\nS" := by decide

/-- C10: the projection is shape-preserving — one output per input item
in the same order (the mapped id list is the input id list), and every
output has `isRadarAsset = true`. -/
theorem radarDocuments_shape_preserving (encode : String → String) (items : List RadarItem) :
    (radarDocuments encode items).length = items.length
    ∧ (radarDocuments encode items).map ProjectedDocument.id = items.map RadarItem.id
    ∧ (radarDocuments encode items).map ProjectedDocument.isRadarAsset
        = List.replicate items.length true := by
  refine ⟨?_, ?_, ?_⟩
  · simp [radarDocuments]
  · simp only [radarDocuments, List.map_map]
    rfl
  · simp only [radarDocuments, List.map_map]
    exact List.map_const' items true

/-! ### Claim-side formulas for the projection (transcribed from the spec) -/

/-- The claim's audio precedence rule: an item is audio when its
`assetType` is `"audio"` or its asset URL ends in `.mp3`. -/
def specAudioClaimed (item : RadarItem) : Bool :=
  item.asset_type == some "audio" || endsWithStr (item.asset_url.getD "") ".mp3"

/-- The claim-side audio rule agrees with the code: a missing or empty
`asset_url` never ends in `.mp3`, so the code's extra truthiness guard
is redundant. -/
theorem specAudioClaimed_eq (item : RadarItem) : specAudioClaimed item = isAudioItem item := by
  have hempty : endsWithStr "" ".mp3" = false := by decide
  unfold specAudioClaimed isAudioItem
  cases h : item.asset_url with
  | none => simp [jsTruthy, hempty]
  | some s =>
    by_cases hs : s = ""
    · subst hs; simp [jsTruthy, hempty]
    · simp [jsTruthy, hs]

/-- A date-shaped timestamp prefix: `DDDD-DD-DD` before the first `T`
(the parseability reading of the claim). -/
def specParseableDate (s : String) : Bool :=
  match (beforeT s).data with
  | [y1, y2, y3, y4, '-', m1, m2, '-', d1, d2] =>
    y1.isDigit && y2.isDigit && y3.isDigit && y4.isDigit
      && m1.isDigit && m2.isDigit && d1.isDigit && d2.isDigit
  | _ => false

/-- C7's claimed date stamp: the date portion with separators removed,
falling back to the placeholder when the timestamp is absent OR
unparseable. -/
def specDateStampClaimed (item : RadarItem) : String :=
  if jsTruthy item.timestamp && specParseableDate (item.timestamp.getD "") then
    stripDashes (beforeT (item.timestamp.getD ""))
  else "20260201"

/-- C7's claimed document name. -/
def specNameClaimed (item : RadarItem) : String :=
  specDateStampClaimed item ++ "-" ++ sanitizeTitle (titleOrSummary item) ++ "-"
    ++ (if specAudioClaimed item then "podcast" else "digest")
    ++ "." ++ (if specAudioClaimed item then "mp3" else "md")

/-- An item whose truthy timestamp is not a parseable date. -/
def cexC7 : RadarItem :=
  { id := "c7", title := some "A", url := none, summary := none,
    asset_type := none, asset_url := none, timestamp := some "junk", parent := none }

/-- C7 counterexample: for a truthy but unparseable timestamp the code
does NOT fall back to the placeholder date — it uses the dash-stripped
prefix of the raw timestamp — so the claimed name formula fails. -/
theorem project_name_unparseable_timestamp_counterexample :
    (projectRadarItem (fun s => s) cexC7).name = "junk-a-digest.md"
    ∧ specNameClaimed cexC7 = "20260201-a-digest.md"
    ∧ (projectRadarItem (fun s => s) cexC7).name ≠ specNameClaimed cexC7 := by
  refine ⟨by decide, by decide, by decide⟩

/-- C7 amended name formula: the placeholder date is used only when the
timestamp is absent or empty; any truthy timestamp — parseable or not —
is truncated at the first `T` and has its dashes removed. -/
def specNameAmended (item : RadarItem) : String :=
  (if jsTruthy item.timestamp then stripDashes (beforeT (item.timestamp.getD ""))
   else "20260201")
    ++ "-" ++ sanitizeTitle (titleOrSummary item) ++ "-"
    ++ (if specAudioClaimed item then "podcast" else "digest")
    ++ "." ++ (if specAudioClaimed item then "mp3" else "md")

/-- C7 amended: every projected name follows the amended formula —
date stamp (placeholder only for absent/empty timestamps), sanitized
truncated title, and the audio-precedence type label and extension. -/
theorem project_name_formula (encode : String → String) (item : RadarItem) :
    (projectRadarItem encode item).name = specNameAmended item := by
  show nameOf item = specNameAmended item
  unfold nameOf specNameAmended dateStrOf typeLabelOf extensionOf
  rw [specAudioClaimed_eq]

/-- C8's claimed URL precedence: explicit asset URL, else generic URL,
else the synthesized data URL for markdown-type items with a summary,
else the sentinel. -/
def specUrlClaimed (encode : String → String) (item : RadarItem) : String :=
  if jsTruthy item.asset_url then item.asset_url.getD ""
  else if jsTruthy item.url then item.url.getD ""
  else if !specAudioClaimed item && jsTruthy item.summary then
    "data:text/markdown;charset=utf-8," ++ encode (markdownContentOf item)
  else "#"

/-- A markdown item with a generic URL and a summary but no asset URL. -/
def cexC8 : RadarItem :=
  { id := "c8", title := some "T", url := some "https://u", summary := some "S",
    asset_type := none, asset_url := none, timestamp := none, parent := none }

/-- C8 counterexample: for a markdown item with both a generic URL and a
summary the code synthesizes the data URL, overriding the generic URL,
while the claimed precedence keeps the generic URL. -/
theorem project_url_precedence_counterexample :
    (projectRadarItem (fun s => s) cexC8).url = "data:text/markdown;charset=utf-8,# T\n\nS"
    ∧ specUrlClaimed (fun s => s) cexC8 = "https://u"
    ∧ (projectRadarItem (fun s => s) cexC8).url ≠ specUrlClaimed (fun s => s) cexC8 := by
  refine ⟨by decide, by decide, by decide⟩

/-- C8 amended URL precedence: explicit asset URL first; else, for
markdown-type items with a summary, the synthesized data URL (even when
a generic URL exists); else the generic URL; else the sentinel. -/
def specUrlAmended (encode : String → String) (item : RadarItem) : String :=
  if jsTruthy item.asset_url then item.asset_url.getD ""
  else if !specAudioClaimed item && jsTruthy item.summary then
    "data:text/markdown;charset=utf-8," ++ encode (markdownContentOf item)
  else if jsTruthy item.url then item.url.getD ""
  else "#"

/-- C8 amended: every projected URL follows the amended precedence,
and an item with no asset URL, no URL and no summary resolves to the
sentinel rather than failing. -/
theorem project_url_resolution (encode : String → String) (item : RadarItem) :
    (projectRadarItem encode item).url = specUrlAmended encode item := by
  show downloadUrlOf encode item = specUrlAmended encode item
  unfold downloadUrlOf specUrlAmended
  rw [specAudioClaimed_eq]
  cases h1 : jsTruthy item.asset_url <;>
    cases h2 : isAudioItem item <;>
      cases h3 : jsTruthy item.summary <;>
        simp [h1, h2, h3]

/-! ### C9: name uniqueness -/

/-- The three components that determine a projected name: date stamp,
sanitized truncated title, and the audio classification. -/
def nameComponents (item : RadarItem) : String × String × Bool :=
  (dateStrOf item, sanitizeTitle (titleOrSummary item), isAudioItem item)

theorem sanitizeTitle_no_dash (s : String) : ∀ c ∈ (sanitizeTitle s).data, c ≠ '-' := by
  intro c hc
  unfold sanitizeTitle at hc
  have hc2 := List.take_subset 30 _ hc
  rcases List.mem_map.mp hc2 with ⟨d, _, rfl⟩
  by_cases h : isLowerAlnum d = true
  · simp only [h, if_true]
    rcases of_decide_eq_true h with h1 | h1 <;>
      · intro heq
        rw [heq] at h1
        revert h1
        decide
  · simp [h]

theorem dateStrOf_no_dash (item : RadarItem) : ∀ c ∈ (dateStrOf item).data, c ≠ '-' := by
  intro c hc
  unfold dateStrOf at hc
  by_cases h : jsTruthy item.timestamp = true
  · rw [if_pos h] at hc
    unfold stripDashes at hc
    have hc2 : c ∈ List.filter (fun c => decide (c ≠ '-'))
        (beforeT (item.timestamp.getD "")).data := hc
    exact of_decide_eq_true (List.mem_filter.mp hc2).2
  · rw [if_neg h] at hc
    have hall : ∀ e ∈ ("20260201" : String).data, e ≠ '-' := by decide
    exact hall c hc

/-- Splitting a dash-separated concatenation: when neither head part
contains a dash, equal concatenations have equal parts. -/
theorem append_dash_inj :
    ∀ (a : List Char) (x : List Char) (b : List Char) (y : List Char),
    (∀ c ∈ a, c ≠ '-') → (∀ c ∈ b, c ≠ '-') →
    a ++ '-' :: x = b ++ '-' :: y → a = b ∧ x = y := by
  intro a
  induction a with
  | nil =>
    intro x b y _ hb h
    cases b with
    | nil => simpa using h
    | cons d b2 =>
      simp only [List.nil_append, List.cons_append, List.cons.injEq] at h
      exact absurd h.1.symm (hb d (List.mem_cons_self d b2))
  | cons c a2 ih =>
    intro x b y ha hb h
    cases b with
    | nil =>
      simp only [List.cons_append, List.nil_append, List.cons.injEq] at h
      exact absurd h.1 (ha c (List.mem_cons_self c a2))
    | cons d b2 =>
      simp only [List.cons_append, List.cons.injEq] at h
      obtain ⟨hcd, htail⟩ := h
      have ha2 : ∀ e ∈ a2, e ≠ '-' := fun e he => ha e (List.mem_cons_of_mem c he)
      have hb2 : ∀ e ∈ b2, e ≠ '-' := fun e he => hb e (List.mem_cons_of_mem d he)
      obtain ⟨h1, h2⟩ := ih x b2 y ha2 hb2 htail
      exact ⟨by rw [hcd, h1], h2⟩

/-- Equal projected names force equal name components. -/
theorem nameOf_eq_components (i1 i2 : RadarItem) (h : nameOf i1 = nameOf i2) :
    nameComponents i1 = nameComponents i2 := by
  have hd : (nameOf i1).data = (nameOf i2).data := congrArg String.data h
  unfold nameOf at hd
  simp only [String.data_append, List.append_assoc] at hd
  simp only [List.singleton_append, List.cons_append, List.nil_append] at hd
  obtain ⟨hdate, hrest⟩ :=
    append_dash_inj _ _ _ _ (dateStrOf_no_dash i1) (dateStrOf_no_dash i2) hd
  obtain ⟨htitle, htail⟩ :=
    append_dash_inj _ _ _ _ (sanitizeTitle_no_dash (titleOrSummary i1))
      (sanitizeTitle_no_dash (titleOrSummary i2)) hrest
  have haudio : isAudioItem i1 = isAudioItem i2 := by
    cases h1 : isAudioItem i1 <;> cases h2 : isAudioItem i2 <;>
      first
        | rfl
        | (rw [typeLabelOf, extensionOf, h1] at htail
           rw [typeLabelOf, extensionOf, h2] at htail
           revert htail
           decide)
  refine Prod.ext ?_ (Prod.ext ?_ ?_)
  · exact congrArg String.mk hdate
  · exact congrArg String.mk htitle
  · exact haudio

/-- C9 amended: projected names are unique within an item set whenever
no two items of the set share all three name components (date stamp,
sanitized truncated title, audio classification); without that proviso
two distinct items can share a name. -/
theorem radarDocuments_name_unique (encode : String → String) (items : List RadarItem)
    (h : (items.map nameComponents).Nodup) :
    ((radarDocuments encode items).map ProjectedDocument.name).Nodup := by
  have h1 : items.Pairwise fun a b => nameComponents a ≠ nameComponents b :=
    List.pairwise_map.mp h
  have h2 : items.Pairwise fun a b => nameOf a ≠ nameOf b :=
    h1.imp fun hab hn => hab (nameOf_eq_components _ _ hn)
  simp only [radarDocuments, List.map_map]
  exact List.pairwise_map.mpr (h2.imp fun hab => hab)

/-- C9 witness items: distinct titles give distinct name components. -/
def witnessItemsC9 : List RadarItem :=
  [{ id := "w1", title := some "Alpha", url := none, summary := none,
     asset_type := none, asset_url := none, timestamp := none, parent := none },
   { id := "w2", title := some "Beta", url := none, summary := none,
     asset_type := none, asset_url := none, timestamp := none, parent := none }]

/-- C9 witness: on a concrete two-item set with distinct components the
projected names are unique. -/
theorem radarDocuments_name_unique_witness :
    ((radarDocuments (fun s => s) witnessItemsC9).map ProjectedDocument.name).Nodup :=
  radarDocuments_name_unique (fun s => s) witnessItemsC9 (by decide)

/-- Two captured items that differ only in their id. -/
def cexC9a : RadarItem :=
  { id := "p1", title := some "Same Title", url := none, summary := none,
    asset_type := none, asset_url := none, timestamp := some "2026-02-01T00:00Z",
    parent := none }

/-- Second item of the C9 counterexample. -/
def cexC9b : RadarItem :=
  { id := "p2", title := some "Same Title", url := none, summary := none,
    asset_type := none, asset_url := none, timestamp := some "2026-02-01T09:30Z",
    parent := none }

/-- C9 counterexample: two distinct items (different ids, even different
timestamps within the same day) project to the same name, so name
uniqueness does not hold for every item set. -/
theorem radarDocuments_name_collision :
    cexC9a.id ≠ cexC9b.id
    ∧ (projectRadarItem (fun s => s) cexC9a).name = (projectRadarItem (fun s => s) cexC9b).name
    ∧ ¬ ((radarDocuments (fun s => s) [cexC9a, cexC9b]).map ProjectedDocument.name).Nodup := by
  refine ⟨by decide, by decide, by decide⟩


/-! ### Thread merge: the `setThreads` update of `handleSelectRadar`
(`src/App.tsx` lines 309-314) -/

/-- A conversation thread as held in the `threads` state of `App`. -/
structure Thread where
  id : String
  title : String
  radarId : Option String
deriving DecidableEq, Repr

/-- `setThreads(prev => ...)`: keep the fetched threads whose id is not
already present, then put them in front of the existing list. -/
def mergeThreads (radarThreads prev : List Thread) : List Thread :=
  (radarThreads.filter fun t => decide (t.id ∉ prev.map Thread.id)) ++ prev

/-- C5: merging fetched list `B` into existing list `A` (each with
duplicate-free ids) yields ids that are exactly the union of the two id
sets with no id repeated, keeps every entry of `A`, and any merged
entry whose id was already in `A` is the entry from `A` itself — `B`
never overwrites. -/
theorem mergeThreads_dedup (A B : List Thread)
    (hA : (A.map Thread.id).Nodup) (hB : (B.map Thread.id).Nodup) :
    ((mergeThreads B A).map Thread.id).Nodup
    ∧ (∀ i : String,
        i ∈ (mergeThreads B A).map Thread.id ↔ i ∈ A.map Thread.id ∨ i ∈ B.map Thread.id)
    ∧ (∀ t ∈ A, t ∈ mergeThreads B A)
    ∧ (∀ t ∈ mergeThreads B A, t.id ∈ A.map Thread.id → t ∈ A) := by
  have hfilter : ∀ t ∈ B.filter fun t => decide (t.id ∉ A.map Thread.id),
      t.id ∉ A.map Thread.id := by
    intro t ht
    exact of_decide_eq_true (List.mem_filter.mp ht).2
  have hsub : List.Sublist (B.filter fun t => decide (t.id ∉ A.map Thread.id)) B :=
    List.filter_sublist B
  refine ⟨?_, ?_, ?_, ?_⟩
  · rw [mergeThreads, List.map_append]
    refine List.Nodup.append ?_ hA ?_
    · exact hB.sublist (hsub.map Thread.id)
    · intro x hx1 hx2
      rcases List.mem_map.mp hx1 with ⟨t, ht, rfl⟩
      exact hfilter t ht hx2
  · intro i
    rw [mergeThreads, List.map_append, List.mem_append]
    constructor
    · rintro (h1 | h2)
      · rcases List.mem_map.mp h1 with ⟨t, ht, rfl⟩
        exact Or.inr (List.mem_map_of_mem Thread.id (hsub.subset ht))
      · exact Or.inl h2
    · rintro (h1 | h2)
      · exact Or.inr h1
      · by_cases hi : i ∈ A.map Thread.id
        · exact Or.inr hi
        · rcases List.mem_map.mp h2 with ⟨t, ht, rfl⟩
          refine Or.inl (List.mem_map_of_mem Thread.id ?_)
          rw [List.mem_filter]
          exact ⟨ht, decide_eq_true hi⟩
  · intro t ht
    exact List.mem_append_right _ ht
  · intro t ht hid
    rcases List.mem_append.mp ht with h1 | h1
    · exact absurd hid (hfilter t h1)
    · exact h1

/-- Concrete existing list for the C5 witness. -/
def witnessA5 : List Thread := [{ id := "t1", title := "kept", radarId := none }]

/-- Concrete fetched list for the C5 witness; it repeats id `t1`. -/
def witnessB5 : List Thread :=
  [{ id := "t1", title := "fetched", radarId := some "r" },
   { id := "t2", title := "new", radarId := some "r" }]

/-- C5 witness: on concrete duplicate-free inputs that overlap on id
`t1`, merged ids are duplicate-free and the `t1` entry is the one from
the existing list. -/
theorem mergeThreads_dedup_witness :
    ((mergeThreads witnessB5 witnessA5).map Thread.id).Nodup
    ∧ ({ id := "t1", title := "kept", radarId := none } : Thread)
        ∈ mergeThreads witnessB5 witnessA5 :=
  ⟨(mergeThreads_dedup witnessA5 witnessB5 (by decide) (by decide)).1,
   (mergeThreads_dedup witnessA5 witnessB5 (by decide) (by decide)).2.2.1
      { id := "t1", title := "kept", radarId := none } (by decide)⟩

/-! ### Workspace resumption: `handleSelectRadar` / `handleSelectThread`
(`src/App.tsx` lines 221-260 and 262-359), modelled from the signed-in
point onward with explicit state passing. -/

/-- A chat message as far as the resolver observes it (ids and
timestamps are fresh UUIDs / clock reads and carry no logic). -/
structure Message where
  role : String
  content : String
deriving DecidableEq, Repr

/-- A session document (`{ name, url }`). -/
structure SessionDoc where
  name : String
  url : String
deriving DecidableEq, Repr

/-- The slice of `App` state the resolver reads and writes. -/
structure AppState where
  messages : List Message
  sessionId : String
  threads : List Thread
  sessionDocuments : List SessionDoc
  activeDocument : Option SessionDoc
  currentStatus : String
  radarItems : List RadarItem
deriving DecidableEq, Repr

/-- The briefing body: `{ summary, scenario }`. -/
structure Briefing where
  summary : String
  scenario : String
deriving DecidableEq, Repr

/-- Result of `GET /api/threads?radar_id=...` as the code consumes it:
the body parsed with an optional `threads` field (there is no `ok`
check), or a thrown fetch/parse. -/
inductive ThreadsResp where
  | json (threads : Option (List Thread))
  | thrown
deriving DecidableEq, Repr

/-- Result of `GET /api/session/:id` as `handleSelectThread` consumes
it: parsed body with optional `messages` and `documents` fields, or a
thrown fetch/parse. -/
inductive SessionResp where
  | json (messages : Option (List Message)) (documents : Option (List SessionDoc))
  | thrown
deriving DecidableEq, Repr

/-- The placeholder seeded before resolution starts. -/
def placeholderMsg : Message :=
  { role := "assistant", content := "Initializing radar workspace..." }

/-- The user-visible message of the outer catch of `handleSelectRadar`. -/
def radarErrorMsg : Message :=
  { role := "assistant",
    content := "I encountered an error trying to initialize this radar. Please try again or check your connection." }

/-- `needle` occurs as a contiguous run inside `hay`. -/
def listContainsRun (needle : List Char) : List Char → Bool
  | [] => needle == []
  | c :: rest => needle.isPrefixOf (c :: rest) || listContainsRun needle rest

/-- `currentStatus.toLowerCase().includes('failed')`. -/
def containsFailedStr (s : String) : Bool :=
  listContainsRun ("failed".data) (s.data.map Char.toLower)

/-- `handleSelectThread` (`App.tsx` 221-260): on a parsed body with a
`messages` field it installs the history, documents and session id; on
a body without `messages` it changes nothing; on a throw it records the
failure in the status line.  The `finally` block clears the status
using the stale `currentStatus` captured at render time
(`renderStatus`). -/
def loadThread (renderStatus : String) (tid : String) (resp : SessionResp)
    (s : AppState) : AppState :=
  let s0 := { s with currentStatus := "Loading research thread..." }
  let s1 :=
    match resp with
    | .json msgs docs =>
      match msgs with
      | some ms =>
        let s2 := { s0 with messages := ms, sessionId := tid }
        match docs with
        | some ds =>
          if ds.length > 0 then
            { s2 with sessionDocuments := ds, activeDocument := ds.getLast? }
          else
            { s2 with sessionDocuments := [], activeDocument := none }
        | none => { s2 with sessionDocuments := [], activeDocument := none }
      | none => s0
    | .thrown =>
      { s0 with currentStatus := "Failed to load the selected thread. Please try again." }
  if containsFailedStr renderStatus then s1 else { s1 with currentStatus := "" }

/-- `handleSelectRadar` (`App.tsx` 289-359), from the signed-in point: a
placeholder conversation is seeded; a thrown briefing or thread fetch
falls to the outer catch which replaces the conversation with
`radarErrorMsg`; a non-2xx briefing degrades to `{ "", "new" }`; a body
without a `threads` field degrades to zero threads; fetched threads are
merged (existing entries win); scenario `"resuming"` with at least one
thread loads the newest thread and prepends the briefing, any other
combination seeds a single briefing message and a fresh session id
(`freshId` stands for the minted UUID); finally the items fetch fills
`radarItems` (2xx), is skipped silently (non-2xx), or falls to the
outer catch (thrown). -/
def resolveRadar (renderStatus freshId : String) (briefing : Fetch Briefing)
    (threadsResp : ThreadsResp) (sessionResp : SessionResp)
    (items : Fetch (List RadarItem)) (s : AppState) : AppState :=
  let s0 := { s with messages := [placeholderMsg], sessionDocuments := [],
                     activeDocument := none }
  match briefing with
  | .netError => { s0 with messages := [radarErrorMsg] }
  | _ =>
    let b := match briefing with
      | .ok b => b
      | _ => { summary := "", scenario := "new" }
    match threadsResp with
    | .thrown => { s0 with messages := [radarErrorMsg] }
    | .json topt =>
      let radarThreads := topt.getD []
      let s1 := { s0 with threads := mergeThreads radarThreads s0.threads }
      let s2 :=
        match radarThreads with
        | t :: _ =>
          if b.scenario = "resuming" then
            let s3 := loadThread renderStatus t.id sessionResp s1
            { s3 with messages := { role := "assistant", content := b.summary } :: s3.messages }
          else
            { s1 with messages := [{ role := "assistant", content := b.summary }],
                      sessionId := freshId }
        | [] =>
          { s1 with messages := [{ role := "assistant", content := b.summary }],
                    sessionId := freshId }
      match items with
      | .ok l => { s2 with radarItems := l }
      | .httpError => s2
      | .netError => { s2 with messages := [radarErrorMsg] }

/-- A concrete starting state for witnesses. -/
def initState : AppState :=
  { messages := [{ role := "assistant", content := "Hello" }], sessionId := "s0",
    threads := [], sessionDocuments := [], activeDocument := none,
    currentStatus := "", radarItems := [] }

example :
    (resolveRadar "" "fresh" (.ok { summary := "brief", scenario := "resuming" })
        (.json (some [{ id := "t1", title := "x", radarId := some "r" }]))
        (.json (some [{ role := "user", content := "hi" }]) none)
        (.ok []) initState).messages
      = [{ role := "assistant", content := "brief" }, { role := "user", content := "hi" }] := by
  decide

example :
    (resolveRadar "" "fresh" (.ok { summary := "brief", scenario := "new" })
        (.json (some [{ id := "t1", title := "x", radarId := some "r" }]))
        (.json (some [{ role := "user", content := "hi" }]) none)
        (.ok []) initState).sessionId = "fresh" := by
  decide

/-- C3: the scenario decision table of `handleSelectRadar`.  With hint
`"resuming"` and at least one thread, a successfully loaded history is
installed and the briefing is prepended as the leading assistant
message (length = history + 1, first content = summary, session id =
that thread's id).  With hint `"resuming"` and zero threads, or any
hint other than `"resuming"` regardless of thread count, a single
assistant briefing message is seeded and a fresh session id is
minted. -/
theorem resolveRadar_scenario_table
    (renderStatus freshId sum : String) (t : Thread) (rest : List Thread)
    (hist : List Message) (docs : Option (List SessionDoc))
    (items : Fetch (List RadarItem)) (s : AppState)
    (hitems : items ≠ Fetch.netError) :
    ((resolveRadar renderStatus freshId (.ok { summary := sum, scenario := "resuming" })
        (.json (some (t :: rest))) (.json (some hist) docs) items s).messages
          = { role := "assistant", content := sum } :: hist
      ∧ (resolveRadar renderStatus freshId (.ok { summary := sum, scenario := "resuming" })
        (.json (some (t :: rest))) (.json (some hist) docs) items s).messages.length
          = hist.length + 1
      ∧ (resolveRadar renderStatus freshId (.ok { summary := sum, scenario := "resuming" })
        (.json (some (t :: rest))) (.json (some hist) docs) items s).messages.head?
          = some { role := "assistant", content := sum }
      ∧ (resolveRadar renderStatus freshId (.ok { summary := sum, scenario := "resuming" })
        (.json (some (t :: rest))) (.json (some hist) docs) items s).sessionId = t.id)
    ∧ ∀ (sc : String) (topt : Option (List Thread)) (sessionResp : SessionResp),
        (sc ≠ "resuming" ∨ topt.getD [] = []) →
        (resolveRadar renderStatus freshId (.ok { summary := sum, scenario := sc })
            (.json topt) sessionResp items s).messages
          = [{ role := "assistant", content := sum }]
        ∧ (resolveRadar renderStatus freshId (.ok { summary := sum, scenario := sc })
            (.json topt) sessionResp items s).sessionId = freshId := by
  constructor
  · have hmain :
        (resolveRadar renderStatus freshId (.ok { summary := sum, scenario := "resuming" })
          (.json (some (t :: rest))) (.json (some hist) docs) items s).messages
            = { role := "assistant", content := sum } :: hist
        ∧ (resolveRadar renderStatus freshId (.ok { summary := sum, scenario := "resuming" })
          (.json (some (t :: rest))) (.json (some hist) docs) items s).sessionId = t.id := by
      cases items with
      | netError => exact absurd rfl hitems
      | ok l =>
        cases docs with
        | none =>
          cases hcf : containsFailedStr renderStatus <;>
            refine ⟨?_, ?_⟩ <;> simp [resolveRadar, loadThread, hcf]
        | some ds =>
          cases hcf : containsFailedStr renderStatus <;>
            by_cases hlen : ds.length > 0 <;>
              refine ⟨?_, ?_⟩ <;> simp [resolveRadar, loadThread, hcf, hlen]
      | httpError =>
        cases docs with
        | none =>
          cases hcf : containsFailedStr renderStatus <;>
            refine ⟨?_, ?_⟩ <;> simp [resolveRadar, loadThread, hcf]
        | some ds =>
          cases hcf : containsFailedStr renderStatus <;>
            by_cases hlen : ds.length > 0 <;>
              refine ⟨?_, ?_⟩ <;> simp [resolveRadar, loadThread, hcf, hlen]
    exact ⟨hmain.1, by rw [hmain.1]; rfl, by rw [hmain.1]; rfl, hmain.2⟩
  · intro sc topt sessionResp hfresh
    cases htd : topt.getD [] with
    | nil =>
      cases items with
      | netError => exact absurd rfl hitems
      | ok l => refine ⟨?_, ?_⟩ <;> simp [resolveRadar, htd]
      | httpError => refine ⟨?_, ?_⟩ <;> simp [resolveRadar, htd]
    | cons t2 rest2 =>
      have hsc : sc ≠ "resuming" := by
        rcases hfresh with h | h
        · exact h
        · rw [htd] at h; exact absurd h (List.cons_ne_nil t2 rest2)
      cases items with
      | netError => exact absurd rfl hitems
      | ok l => refine ⟨?_, ?_⟩ <;> simp [resolveRadar, htd, hsc]
      | httpError => refine ⟨?_, ?_⟩ <;> simp [resolveRadar, htd, hsc]

/-- C3 witness: the decision table on concrete inputs — a resuming
radar with one thread and a one-message history yields the briefing
followed by that history; a new-scenario radar mints the fresh id. -/
theorem resolveRadar_scenario_table_witness :
    ((resolveRadar "" "fresh-1" (.ok { summary := "brief", scenario := "resuming" })
        (.json (some [{ id := "t1", title := "x", radarId := some "r" }]))
        (.json (some [{ role := "user", content := "hi" }]) none)
        (.ok []) initState).messages
      = [{ role := "assistant", content := "brief" }, { role := "user", content := "hi" }])
    ∧ (resolveRadar "" "fresh-1" (.ok { summary := "brief", scenario := "new" })
        (.json (some [{ id := "t1", title := "x", radarId := some "r" }]))
        (.json (some [{ role := "user", content := "hi" }]) none)
        (.ok []) initState).sessionId = "fresh-1" :=
  ⟨(resolveRadar_scenario_table "" "fresh-1" "brief"
      { id := "t1", title := "x", radarId := some "r" } [] [{ role := "user", content := "hi" }]
      none (.ok []) initState (by simp)).1.1,
   ((resolveRadar_scenario_table "" "fresh-1" "brief"
      { id := "t1", title := "x", radarId := some "r" } [] [{ role := "user", content := "hi" }]
      none (.ok []) initState (by simp)).2 "new"
      (some [{ id := "t1", title := "x", radarId := some "r" }])
      (.json (some [{ role := "user", content := "hi" }]) none)
      (Or.inl (by decide))).2⟩

/-- C4 counterexample: a thrown briefing fetch (and likewise a thrown
thread-listing fetch) does not degrade silently — it aborts resolution
through the outer catch and replaces the conversation with a
user-visible error message. -/
theorem resolveRadar_thrown_fetch_surfaces_error :
    (resolveRadar "" "f" .netError (.json (some [])) (.json none none) (.ok [])
        initState).messages = [radarErrorMsg]
    ∧ (resolveRadar "" "f" (.ok { summary := "b", scenario := "new" }) .thrown
        (.json none none) (.ok []) initState).messages = [radarErrorMsg] :=
  ⟨rfl, rfl⟩

/-- C4 amended: a non-2xx briefing degrades to the empty summary and
scenario `"new"`; a parsed threads body without a `threads` field
degrades to zero threads; but a thrown briefing or thread-listing fetch
aborts resolution with the user-visible conversation error message; and
a failed session load in the resuming branch does not abort — the
conversation keeps the placeholder with the briefing prepended (no
conversation error message) and the items are still fetched. -/
theorem resolveRadar_failure_policy :
    (∀ rs f tr sr it s,
      resolveRadar rs f .httpError tr sr it s
        = resolveRadar rs f (.ok { summary := "", scenario := "new" }) tr sr it s)
    ∧ (∀ rs f (b : Fetch Briefing) sr it s, b ≠ Fetch.netError →
      resolveRadar rs f b (.json none) sr it s
        = resolveRadar rs f b (.json (some [])) sr it s)
    ∧ (∀ rs f tr sr it s,
      (resolveRadar rs f .netError tr sr it s).messages = [radarErrorMsg])
    ∧ (∀ rs f (b : Fetch Briefing) sr it s, b ≠ Fetch.netError →
      (resolveRadar rs f b .thrown sr it s).messages = [radarErrorMsg])
    ∧ (∀ rs f sum (t : Thread) rest l s,
      (resolveRadar rs f (.ok { summary := sum, scenario := "resuming" })
          (.json (some (t :: rest))) .thrown (.ok l) s).messages
        = [{ role := "assistant", content := sum }, placeholderMsg]
      ∧ (resolveRadar rs f (.ok { summary := sum, scenario := "resuming" })
          (.json (some (t :: rest))) .thrown (.ok l) s).radarItems = l) := by
  refine ⟨fun rs f tr sr it s => rfl, ?_, fun rs f tr sr it s => rfl, ?_, ?_⟩
  · intro rs f b sr it s hb
    cases b with
    | ok v => rfl
    | httpError => rfl
    | netError => exact absurd rfl hb
  · intro rs f b sr it s hb
    cases b with
    | ok v => rfl
    | httpError => rfl
    | netError => exact absurd rfl hb
  · intro rs f sum t rest l s
    cases hcf : containsFailedStr rs <;>
      refine ⟨?_, ?_⟩ <;> simp [resolveRadar, loadThread, hcf, placeholderMsg]

/-- C4 witness: concrete instances — a non-2xx briefing behaves exactly
like an ok `(summary "", scenario "new")` briefing, and a thrown thread
fetch under an ok briefing surfaces the conversation error. -/
theorem resolveRadar_failure_policy_witness :
    (resolveRadar "" "f" .httpError (.json (some [])) (.json none none) (.ok []) initState
      = resolveRadar "" "f" (.ok { summary := "", scenario := "new" }) (.json (some []))
          (.json none none) (.ok []) initState)
    ∧ (resolveRadar "" "f" (.ok { summary := "b", scenario := "new" }) .thrown
        (.json none none) (.ok []) initState).messages = [radarErrorMsg] :=
  ⟨resolveRadar_failure_policy.1 "" "f" (.json (some [])) (.json none none) (.ok []) initState,
   resolveRadar_failure_policy.2.2.2.1 "" "f" (.ok { summary := "b", scenario := "new" })
      (.json none none) (.ok []) initState (by decide)⟩

end Aletheia
